import Mathlib

/-
Verification of the per-frame update core of the TowerDefense game
(src/TowerDefense/main.cpp).

Modelling choices:
* C++ `float` arithmetic is idealised as real arithmetic (ℝ); `sqrtf` is
  `Real.sqrt`.
* `uint32_t` values (monster health, player health, damage, indices) are
  natural numbers; the C++ unsigned subtraction `a -= b` is modelled by
  `u32sub`, explicit wraparound modulo 2^32.  The C++ comparison `x <= 0`
  on an unsigned value is `x ≤ 0` on Nat (equivalent to `x = 0`), exactly
  as the machine evaluates it.
* `std::vector` is `List`; `v[i]` where `i` may be out of bounds is
  modelled with `List.get?`, and an out-of-bounds access (undefined
  behavior in the source) makes the update return `none`.
* Functions that mutate through references return their updated values;
  `UpdateMonster`/`UpdateBullet` return `Option (Bool × ...)` where the
  `Bool` is the C++ return value (`false` means the entity is dead).
-/

namespace TowerDefense

/-- MONSTER_SPEED constant from main.cpp (pixels per second). -/
def MONSTER_SPEED : ℝ := 100

/-- BULLET_SPEED constant from main.cpp (pixels per second). -/
def BULLET_SPEED : ℝ := 150

/-- BULLET_RADIUS constant from main.cpp (pixels). -/
def BULLET_RADIUS : ℝ := 8

/-- One past the largest `uint32_t` value. -/
def U32 : Nat := 2 ^ 32

/-- C++ `uint32_t` subtraction `a - b`: wraparound modulo 2^32. -/
def u32sub (a b : Nat) : Nat := (a + (U32 - b % U32)) % U32

/-- Position component (struct Position). -/
structure Position where
  x : ℝ
  y : ℝ

/-- Velocity component (struct Velocity). -/
structure Velocity where
  x : ℝ
  y : ℝ

/-- struct Monster: health, position, velocity, targeted waypoint index,
damage dealt to the player on arrival. -/
structure Monster where
  health : Nat
  position : Position
  velocity : Velocity
  waypoint_index : Nat
  damage : Nat

/-- struct Waypoint. -/
structure Waypoint where
  position : Position

/-- struct Tower: position, attack range, attack rate, cooldown timer. -/
structure Tower where
  position : Position
  range : ℝ
  attackRate : ℝ
  timer : ℝ

/-- struct Bullet: position, velocity, damage, tracked monster index. -/
structure Bullet where
  position : Position
  velocity : Velocity
  damage : Nat
  target_index : Nat

/-- Function Distance from main.cpp: Euclidean distance between two positions. -/
noncomputable def Distance (pos1 pos2 : Position) : ℝ :=
  Real.sqrt ((pos2.x - pos1.x) * (pos2.x - pos1.x) +
             (pos2.y - pos1.y) * (pos2.y - pos1.y))

/-- Function Magnitude from main.cpp. -/
noncomputable def Magnitude (x y : ℝ) : ℝ :=
  Real.sqrt (x * x + y * y)

/-- Function Normalize from main.cpp: divides both components by the magnitude.
The source performs the division unconditionally; a zero magnitude is a
division by zero there (NaN in float; in this real-valued model Lean's
division by zero convention applies instead). -/
noncomputable def Normalize (x y : ℝ) : Velocity :=
  ⟨x / Magnitude x y, y / Magnitude x y⟩

/-- The x component of the direction vector from a monster to a waypoint
(`xdir` local in `UpdateMonster`). -/
def xdir (monster : Monster) (wp : Waypoint) : ℝ :=
  wp.position.x - monster.position.x

/-- The y component of the direction vector from a monster to a waypoint
(`ydir` local in `UpdateMonster`). -/
def ydir (monster : Monster) (wp : Waypoint) : ℝ :=
  wp.position.y - monster.position.y

/-- The movement step at the end of `UpdateMonster`: look up the (possibly
just advanced) target waypoint, normalize the direction to it, and move by
MONSTER_SPEED times the elapsed time.  Returns `none` if the waypoint index
is out of bounds (undefined behavior in the source). -/
noncomputable def moveStep (monster : Monster) (DeltaTime : ℝ)
    (waypoints : List Waypoint) (player_health : Nat) :
    Option (Bool × Monster × Nat) :=
  match waypoints.get? monster.waypoint_index with
  | none => none
  | some wp =>
    let nd := Normalize (xdir monster wp) (ydir monster wp)
    some (true,
      { monster with position :=
          ⟨monster.position.x + nd.x * MONSTER_SPEED * DeltaTime,
           monster.position.y + nd.y * MONSTER_SPEED * DeltaTime⟩ },
      player_health)

/-- Function UpdateMonster from main.cpp.  Returns `some (alive, monster', player_health')`,
or `none` on an out-of-bounds waypoint access (undefined behavior in the
source, reachable only with an empty waypoint list or a stray index). -/
noncomputable def UpdateMonster (monster : Monster) (DeltaTime : ℝ)
    (waypoints : List Waypoint) (player_health : Nat) :
    Option (Bool × Monster × Nat) :=
  if monster.health ≤ 0 then
    some (false, monster, player_health)
  else if waypoints.length = 1 then
    some (false, monster, player_health)
  else
    match waypoints.get? monster.waypoint_index with
    | none => none
    | some wp =>
      if Distance monster.position wp.position ≤ 2 then
        if waypoints.length - 1 = monster.waypoint_index then
          some (false, monster, u32sub player_health monster.damage)
        else
          moveStep { monster with waypoint_index := monster.waypoint_index + 1 }
            DeltaTime waypoints player_health
      else
        moveStep monster DeltaTime waypoints player_health

/-- The scan loop of `UpdateTower`: walk the monster list (with `i` the
absolute index of the head), fire at the first monster in range provided
the timer has reached the attack rate. -/
noncomputable def UpdateTowerScan (tower : Tower) :
    List Monster → Nat → Tower × Option Bullet
  | [], _ => (tower, none)
  | m :: ms, i =>
    if Distance tower.position m.position ≤ tower.range then
      if tower.attackRate ≤ tower.timer then
        ({ tower with timer := 0 }, some ⟨tower.position, ⟨0, 0⟩, 50, i⟩)
      else
        UpdateTowerScan tower ms (i + 1)
    else
      UpdateTowerScan tower ms (i + 1)

/-- Function UpdateTower from main.cpp: accumulate the elapsed time into the
timer unconditionally, then scan the monsters.  The emitted bullet (if
any) is returned instead of being pushed into the bullet vector. -/
noncomputable def UpdateTower (tower : Tower) (DeltaTime : ℝ)
    (monsters : List Monster) : Tower × Option Bullet :=
  UpdateTowerScan { tower with timer := tower.timer + DeltaTime } monsters 0

/-- Function UpdateBullet from main.cpp.  Returns `some (alive, bullet', monsters')`,
or `none` on an out-of-bounds monster access (unreachable: the retarget
guard restores index validity first). -/
noncomputable def UpdateBullet (bullet : Bullet) (DeltaTime : ℝ)
    (monsters : List Monster) : Option (Bool × Bullet × List Monster) :=
  if monsters.length = 0 then
    some (false, bullet, monsters)
  else
    let bullet1 :=
      if monsters.length ≤ bullet.target_index ∧ monsters.length ≠ 0 then
        { bullet with target_index := monsters.length - 1 }
      else bullet
    match monsters.get? bullet1.target_index with
    | none => none
    | some tgt =>
      let nd := Normalize (tgt.position.x - bullet1.position.x)
                          (tgt.position.y - bullet1.position.y)
      let bullet2 :=
        { bullet1 with position :=
            ⟨bullet1.position.x + nd.x * BULLET_SPEED * DeltaTime,
             bullet1.position.y + nd.y * BULLET_SPEED * DeltaTime⟩ }
      if Distance bullet2.position tgt.position ≤ BULLET_RADIUS then
        some (false, bullet2,
          monsters.set bullet1.target_index
            { tgt with health := u32sub tgt.health bullet2.damage })
      else
        some (true, bullet2, monsters)

/-- The removal/compaction scan from `main`: starting at index `i`, run the
per-entity `step` on each entity; if it reports dead, overwrite the slot
with the record currently at the end of the collection, pop the last
element, count one removal, and re-examine the same index.  `step` also
threads a piece of shared state `s` (player health for the monster pass,
nothing for the bullet pass) and may fail (`none`, undefined behavior),
which aborts the scan. -/
def compactLoop {α : Type u} {σ : Type v}
    (step : α → σ → Option (Bool × α × σ)) :
    (v : List α) → σ → Nat → Nat → Option (List α × σ × Nat)
  | v, s, k, i =>
    if h : i < v.length then
      match step (v.get ⟨i, h⟩) s with
      | none => none
      | some (alive, a, s') =>
        if alive then
          compactLoop step (v.set i a) s' k (i + 1)
        else
          compactLoop step
            (((v.set i a).set i
              ((v.set i a).getD ((v.set i a).length - 1) a)).dropLast)
            s' (k + 1) i
    else
      some (v, s, k)
termination_by v _ _ i => v.length - i
decreasing_by
  all_goals simp [List.length_set, List.length_dropLast]
  all_goals omega

/-- The monster phase of one frame: run `UpdateMonster` over the monster
vector with the swap-with-last compaction, counting removed monsters into
the kill counter. -/
noncomputable def MonsterPass (monsters : List Monster) (DeltaTime : ℝ)
    (waypoints : List Waypoint) (player_health : Nat) (kills : Nat) :
    Option (List Monster × Nat × Nat) :=
  compactLoop (fun m ph => UpdateMonster m DeltaTime waypoints ph)
    monsters player_health kills 0

/-- Concrete square root helper for the witness computations. -/
lemma sqrt_hundred : Real.sqrt 100 = 10 := by
  rw [show (100 : ℝ) = 10 ^ 2 by norm_num]
  exact Real.sqrt_sq (by norm_num)

/-- A healthy monster far from the seed waypoint (used for concrete inputs). -/
def mGuard : Monster := ⟨100, ⟨500, 500⟩, ⟨0, 0⟩, 0, 5⟩

/-- The seed waypoint placed by `main` at game start. -/
def wpSeed : Waypoint := ⟨⟨150, 150⟩⟩

/-- A bullet at the origin with the fixed per-shot damage 50. -/
def bHit : Bullet := ⟨⟨0, 0⟩, ⟨0, 0⟩, 50, 0⟩

/-- A monster at the origin with 30 health, less than one bullet's damage. -/
def mWeak : Monster := ⟨30, ⟨0, 0⟩, ⟨0, 0⟩, 0, 5⟩

/-- The monster `mWeak` after one bullet impact: its unsigned health has wrapped. -/
def mWrapped : Monster := ⟨u32sub 30 50, ⟨0, 0⟩, ⟨0, 0⟩, 0, 5⟩

/-- A two-waypoint path through the origin. -/
def wsTwo : List Waypoint := [⟨⟨0, 0⟩⟩, ⟨⟨10, 0⟩⟩]

/-- The monster `mWrapped` after one more monster update: it advanced to waypoint 1 and
moved 100 pixels toward it. -/
def mWrappedMoved : Monster := ⟨u32sub 30 50, ⟨100, 0⟩, ⟨0, 0⟩, 1, 5⟩

/-- Claim C1, failing input: damage application on the `uint32_t` health
field wraps modulo 2^32 instead of going negative.  A bullet with damage 50
hits a monster with health 30; the health becomes 2^32 - 20 (a huge
positive value, not a negative one), so on the monster system's next read
the `health <= 0` test (which on an unsigned value only detects exact zero)
reports the monster ALIVE, and the monster moves — the claim says it is
reported dead with no movement. -/
theorem claim1_health_underflow_monster_survives :
    UpdateBullet bHit 0 [mWeak] = some (false, bHit, [mWrapped]) ∧
    mWrapped.health = 2 ^ 32 - 20 ∧
    0 < mWrapped.health ∧
    UpdateMonster mWrapped 1 wsTwo 100 = some (true, mWrappedMoved, 100) := by
  refine ⟨?_, ?_, ?_, ?_⟩
  · norm_num [UpdateBullet, bHit, mWeak, mWrapped, Normalize, Magnitude,
      Distance, BULLET_RADIUS, u32sub, U32]
  · norm_num [mWrapped, u32sub, U32]
  · norm_num [mWrapped, u32sub, U32]
  · norm_num [UpdateMonster, moveStep, mWrapped, mWrappedMoved, wsTwo,
      Distance, Normalize, Magnitude, xdir, ydir, MONSTER_SPEED,
      u32sub, U32, sqrt_hundred]

/-- A monster standing on the final waypoint of `wsGoal`. -/
def mGoal : Monster := ⟨100, ⟨150, 150⟩, ⟨0, 0⟩, 1, 5⟩

/-- A two-waypoint path ending at (150, 150). -/
def wsGoal : List Waypoint := [⟨⟨0, 0⟩⟩, ⟨⟨150, 150⟩⟩]

/-- Claim C2, failing input: a monster with damage 5 reaches the final
waypoint while the player has only 3 health.  The `uint32_t` player health
wraps to 2^32 - 2 instead of decreasing: it ends up far above its previous
value, and the driver's `player_health == 0` game-over test can never fire
again.  The claim's non-negative-counter-decrement description fails. -/
theorem claim2_player_health_underflow :
    UpdateMonster mGoal 1 wsGoal 3 = some (false, mGoal, 2 ^ 32 - 2) ∧
    3 < 2 ^ 32 - 2 := by
  constructor
  · norm_num [UpdateMonster, mGoal, wsGoal, Distance, u32sub, U32]
  · norm_num

/-- Claim C3, counterexample: with ZERO waypoints the degenerate-path guard
(`waypoints.size() == 1` in the source) does not fire; the update instead
performs an out-of-bounds vector access (`none` in this model) rather than
reporting the monster dead with no movement or health change. -/
theorem claim3_cex_zero_waypoints :
    UpdateMonster mGuard 1 [] 100 = none ∧
    UpdateMonster mGuard 1 [] 100 ≠ some (false, mGuard, 100) := by
  constructor
  · norm_num [UpdateMonster, mGuard]
  · intro h
    norm_num [UpdateMonster, mGuard] at h
    exact Option.noConfusion h

/-- Claim C3 (amended): for every monster with positive health, if the
waypoint sequence has EXACTLY ONE waypoint, `UpdateMonster` reports the
monster dead and neither moves it nor changes player health.  (With zero
waypoints the guard does not fire and the access is out of bounds; that
state is unreachable in the game, which seeds one waypoint at startup.) -/
theorem claim3_single_waypoint_guard (monster : Monster) (DeltaTime : ℝ)
    (w : Waypoint) (player_health : Nat) (hpos : 0 < monster.health) :
    UpdateMonster monster DeltaTime [w] player_health =
      some (false, monster, player_health) := by
  unfold UpdateMonster
  rw [if_neg (by omega), if_pos (by simp)]

/-- Witness for `claim3_single_waypoint_guard` at a concrete input. -/
theorem claim3_single_waypoint_guard_w :
    0 < mGuard.health ∧
    UpdateMonster mGuard 1 [wpSeed] 100 = some (false, mGuard, 100) :=
  ⟨by norm_num [mGuard],
   claim3_single_waypoint_guard mGuard 1 wpSeed 100 (by norm_num [mGuard])⟩

/-- Claim C7: for every bullet update with a non-empty monster collection
and a target index at least the monster count, the update behaves exactly
as if the target index were the last valid index, it does not fail (no
out-of-bounds access), and the bullet it returns carries the last valid
index. -/
theorem claim7_bullet_retarget (bullet : Bullet) (DeltaTime : ℝ)
    (monsters : List Monster)
    (hne : monsters ≠ []) (hge : monsters.length ≤ bullet.target_index) :
    UpdateBullet bullet DeltaTime monsters =
      UpdateBullet { bullet with target_index := monsters.length - 1 }
        DeltaTime monsters ∧
    (UpdateBullet bullet DeltaTime monsters).isSome = true ∧
    ∀ alive b' ms',
      UpdateBullet bullet DeltaTime monsters = some (alive, b', ms') →
      b'.target_index = monsters.length - 1 := by
  have hn : monsters.length ≠ 0 := by
    simpa [List.length_eq_zero] using hne
  have hlt : monsters.length - 1 < monsters.length := by omega
  have htgt : monsters.get? (monsters.length - 1) =
      some (monsters.get ⟨monsters.length - 1, hlt⟩) := List.get?_eq_get hlt
  have hnle : ¬ (monsters.length ≤ monsters.length - 1) := by omega
  refine ⟨?_, ?_, ?_⟩
  · simp only [UpdateBullet, if_neg hn, if_pos (And.intro hge hn),
      if_neg (by simp [hnle] : ¬ (monsters.length ≤ monsters.length - 1 ∧
        monsters.length ≠ 0))]
  · simp only [UpdateBullet, if_neg hn, if_pos (And.intro hge hn), htgt]
    split <;> simp
  · intro alive b' ms' h
    simp only [UpdateBullet, if_neg hn, if_pos (And.intro hge hn), htgt] at h
    split at h <;>
    · simp only [Option.some.injEq, Prod.mk.injEq] at h
      obtain ⟨-, hb, -⟩ := h
      rw [← hb]

/-- A bullet whose target index 5 is stale for a one-monster collection. -/
def bStray : Bullet := ⟨⟨0, 0⟩, ⟨0, 0⟩, 50, 5⟩

/-- Witness for `claim7_bullet_retarget` at a concrete input. -/
theorem claim7_bullet_retarget_w :
    ([mWeak] ≠ ([] : List Monster)) ∧
    ([mWeak] : List Monster).length ≤ bStray.target_index ∧
    (UpdateBullet bStray 0 [mWeak] =
      UpdateBullet { bStray with target_index := 0 } 0 [mWeak] ∧
    (UpdateBullet bStray 0 [mWeak]).isSome = true ∧
    ∀ alive b' ms', UpdateBullet bStray 0 [mWeak] = some (alive, b', ms') →
      b'.target_index = 0) :=
  ⟨by simp, by norm_num [bStray],
   claim7_bullet_retarget bStray 0 [mWeak] (by simp) (by norm_num [bStray])⟩

/-- Claim C8: for every bullet update with an empty monster collection, the
bullet is reported dead immediately; no monster is mutated (the collection
comes back empty and untouched) and the bullet record itself is returned
unchanged. -/
theorem claim8_orphaned_bullet_dead (bullet : Bullet) (DeltaTime : ℝ) :
    UpdateBullet bullet DeltaTime [] = some (false, bullet, []) := by
  simp [UpdateBullet]

/-- A healthy monster sitting at the origin, targeting waypoint 0. -/
def mAtOrigin : Monster := ⟨100, ⟨0, 0⟩, ⟨0, 0⟩, 0, 5⟩

/-- A waypoint at the origin. -/
def wpOrigin : Waypoint := ⟨⟨0, 0⟩⟩

/-- A waypoint at (10, 0). -/
def wpTen : Waypoint := ⟨⟨10, 0⟩⟩

/-- Two waypoints at the same spot: a degenerate but constructible path
(the player can click the same point twice). -/
def wsDup : List Waypoint := [⟨⟨0, 0⟩⟩, ⟨⟨0, 0⟩⟩]

/-- Claim C4, counterexample: a monster standing on waypoint 0 of a path
whose waypoint 1 is at the same spot reaches the movement step with a
just-advanced target index, and the direction vector there is ZERO: the
update reduces to the movement step on the advanced monster, and the
magnitude fed to `Normalize`'s division is 0, so the source divides by
zero (NaN in float arithmetic). -/
theorem claim4_cex_zero_direction :
    UpdateMonster mAtOrigin 1 wsDup 100 =
      moveStep { mAtOrigin with waypoint_index := 1 } 1 wsDup 100 ∧
    wsDup.get? 1 = some wpOrigin ∧
    Magnitude (xdir { mAtOrigin with waypoint_index := 1 } wpOrigin)
              (ydir { mAtOrigin with waypoint_index := 1 } wpOrigin) = 0 := by
  refine ⟨?_, by norm_num [wsDup, wpOrigin], ?_⟩
  · norm_num [UpdateMonster, mAtOrigin, wsDup, Distance]
  · norm_num [Magnitude, xdir, ydir, mAtOrigin, wpOrigin]

/-- Claim C4 (amended): when the movement step is reached WITHOUT the
waypoint index having just advanced — the monster is farther than the
proximity threshold from the waypoint it targets — the direction vector is
non-zero, so the division inside `Normalize` has a non-zero denominator.
(When the index HAS just advanced, the direction to the new waypoint can
be zero — monster exactly at the next waypoint, as in the counterexample —
and `Normalize` then divides by zero.) -/
theorem claim4_no_advance_direction_nonzero (monster : Monster)
    (waypoints : List Waypoint) (wp : Waypoint)
    (hwp : waypoints.get? monster.waypoint_index = some wp)
    (hfar : ¬ Distance monster.position wp.position ≤ 2) :
    Magnitude (xdir monster wp) (ydir monster wp) ≠ 0 := by
  have hd : Magnitude (xdir monster wp) (ydir monster wp) =
      Distance monster.position wp.position := rfl
  rw [hd]
  intro h0
  rw [h0] at hfar
  norm_num at hfar

/-- Witness for `claim4_no_advance_direction_nonzero` at a concrete input. -/
theorem claim4_no_advance_direction_nonzero_w :
    ([wpTen] : List Waypoint).get? mAtOrigin.waypoint_index = some wpTen ∧
    ¬ Distance mAtOrigin.position wpTen.position ≤ 2 ∧
    Magnitude (xdir mAtOrigin wpTen) (ydir mAtOrigin wpTen) ≠ 0 :=
  ⟨by norm_num [mAtOrigin],
   by norm_num [Distance, mAtOrigin, wpTen, sqrt_hundred],
   claim4_no_advance_direction_nonzero mAtOrigin [wpTen] wpTen
     (by norm_num [mAtOrigin])
     (by norm_num [Distance, mAtOrigin, wpTen, sqrt_hundred])⟩

/-- Claim C9: a monster that survives an update keeps `waypoint_index`
inside the waypoint sequence (the lower bound is automatic: the index is a
natural number); the index grows by at most one per call, never shrinks,
and grows only when the monster was within the proximity threshold of a
waypoint that is not the final one. -/
theorem claim9_waypoint_index_invariant (monster : Monster) (DeltaTime : ℝ)
    (waypoints : List Waypoint) (player_health : Nat)
    (monster' : Monster) (player_health' : Nat)
    (hlen : 2 ≤ waypoints.length)
    (hidx : monster.waypoint_index < waypoints.length)
    (hs : UpdateMonster monster DeltaTime waypoints player_health =
      some (true, monster', player_health')) :
    monster'.waypoint_index < waypoints.length ∧
    monster.waypoint_index ≤ monster'.waypoint_index ∧
    monster'.waypoint_index ≤ monster.waypoint_index + 1 ∧
    (monster'.waypoint_index = monster.waypoint_index + 1 →
      ∃ wp, waypoints.get? monster.waypoint_index = some wp ∧
        Distance monster.position wp.position ≤ 2 ∧
        monster.waypoint_index ≠ waypoints.length - 1) := by
  unfold UpdateMonster at hs
  split at hs
  · simp at hs
  split at hs
  · simp at hs
  split at hs
  · exact Option.noConfusion hs
  rename_i h1 wp hwp
  split at hs
  · rename_i h2
    split at hs
    · simp at hs
    rename_i h3
    simp only [moveStep] at hs
    split at hs
    · exact Option.noConfusion hs
    simp only [Option.some.injEq, Prod.mk.injEq, true_and] at hs
    obtain ⟨hm, -⟩ := hs
    rw [← hm]
    refine ⟨?_, ?_, ?_, ?_⟩
    · show monster.waypoint_index + 1 < waypoints.length
      omega
    · show monster.waypoint_index ≤ monster.waypoint_index + 1
      omega
    · show monster.waypoint_index + 1 ≤ monster.waypoint_index + 1
      omega
    · intro _
      exact ⟨wp, hwp, h2, fun h => h3 h.symm⟩
  · rename_i h2
    simp only [moveStep] at hs
    split at hs
    · exact Option.noConfusion hs
    simp only [Option.some.injEq, Prod.mk.injEq, true_and] at hs
    obtain ⟨hm, -⟩ := hs
    rw [← hm]
    refine ⟨hidx, ?_, ?_, ?_⟩
    · show monster.waypoint_index ≤ monster.waypoint_index
      omega
    · show monster.waypoint_index ≤ monster.waypoint_index + 1
      omega
    · intro h
      exact absurd
        (show monster.waypoint_index = monster.waypoint_index + 1 from h)
        (by omega)

/-- The monster `mAtOrigin` after a surviving zero-time update on `wsTwo`: the index
advanced to waypoint 1; zero elapsed time means zero displacement. -/
def mAdvanced : Monster := ⟨100, ⟨0, 0⟩, ⟨0, 0⟩, 1, 5⟩

/-- Witness for `claim9_waypoint_index_invariant` at a concrete input. -/
theorem claim9_waypoint_index_invariant_w :
    2 ≤ wsTwo.length ∧ mAtOrigin.waypoint_index < wsTwo.length ∧
    UpdateMonster mAtOrigin 0 wsTwo 100 = some (true, mAdvanced, 100) ∧
    (mAdvanced.waypoint_index < wsTwo.length ∧
     mAtOrigin.waypoint_index ≤ mAdvanced.waypoint_index ∧
     mAdvanced.waypoint_index ≤ mAtOrigin.waypoint_index + 1 ∧
     (mAdvanced.waypoint_index = mAtOrigin.waypoint_index + 1 →
       ∃ wp, wsTwo.get? mAtOrigin.waypoint_index = some wp ∧
         Distance mAtOrigin.position wp.position ≤ 2 ∧
         mAtOrigin.waypoint_index ≠ wsTwo.length - 1)) := by
  have hupd : UpdateMonster mAtOrigin 0 wsTwo 100 =
      some (true, mAdvanced, 100) := by
    norm_num [UpdateMonster, moveStep, mAtOrigin, mAdvanced, wsTwo,
      Distance, Normalize, Magnitude, xdir, ydir, MONSTER_SPEED]
  exact ⟨by norm_num [wsTwo], by norm_num [mAtOrigin, wsTwo], hupd,
    claim9_waypoint_index_invariant mAtOrigin 0 wsTwo 100 mAdvanced 100
      (by norm_num [wsTwo]) (by norm_num [mAtOrigin, wsTwo]) hupd⟩

/-- How the tower scan can fire: the timer must have reached the attack
rate, the timer is reset, the bullet starts at the tower with damage 50,
and its target is the first in-range monster at or after the scan start. -/
lemma UpdateTowerScan_fire_spec (tower : Tower) :
    ∀ (ms : List Monster) (i : Nat) (blt : Bullet),
      (UpdateTowerScan tower ms i).2 = some blt →
      tower.attackRate ≤ tower.timer ∧
      (UpdateTowerScan tower ms i).1 = { tower with timer := 0 } ∧
      blt.position = tower.position ∧ blt.damage = 50 ∧
      i ≤ blt.target_index ∧
      ∃ m, ms.get? (blt.target_index - i) = some m ∧
        Distance tower.position m.position ≤ tower.range ∧
        ∀ j m', j < blt.target_index - i → ms.get? j = some m' →
          ¬ Distance tower.position m'.position ≤ tower.range := by
  intro ms
  induction ms with
  | nil =>
    intro i blt h
    simp [UpdateTowerScan] at h
  | cons m ms ih =>
    intro i blt h
    by_cases hin : Distance tower.position m.position ≤ tower.range
    · by_cases ht : tower.attackRate ≤ tower.timer
      · simp only [UpdateTowerScan, if_pos hin, if_pos ht,
          Option.some.injEq] at h
        rw [← h]
        refine ⟨ht, ?_, rfl, rfl, Nat.le_refl i, m, ?_, hin, ?_⟩
        · simp [UpdateTowerScan, if_pos hin, if_pos ht]
        · show (m :: ms).get? (i - i) = some m
          simp
        · intro j m' hj _
          exact absurd (show j < i - i from hj) (by omega)
      · simp only [UpdateTowerScan, if_pos hin, if_neg ht] at h
        exact absurd (ih (i + 1) blt h).1 ht
    · simp only [UpdateTowerScan, if_neg hin] at h
      obtain ⟨ht, htw, hpos, hdmg, hle, m', hget, hdist, hall⟩ :=
        ih (i + 1) blt h
      refine ⟨ht, ?_, hpos, hdmg, by omega, m', ?_, hdist, ?_⟩
      · rw [show (UpdateTowerScan tower (m :: ms) i).1 =
            (UpdateTowerScan tower ms (i + 1)).1 by
          simp [UpdateTowerScan, if_neg hin]]
        exact htw
      · rw [show blt.target_index - i = (blt.target_index - (i + 1)) + 1 by
          omega]
        simpa using hget
      · intro j m'' hj hgetj
        match j, hgetj with
        | 0, hgetj =>
          have hm : m'' = m := by simpa using hgetj.symm
          rw [hm]
          exact hin
        | j + 1, hgetj =>
          exact hall j m'' (by omega) (by simpa using hgetj)

/-- When the tower scan does not fire, the tower comes back unchanged. -/
lemma UpdateTowerScan_none_spec (tower : Tower) :
    ∀ (ms : List Monster) (i : Nat),
      (UpdateTowerScan tower ms i).2 = none →
      (UpdateTowerScan tower ms i).1 = tower := by
  intro ms
  induction ms with
  | nil =>
    intro i _
    simp [UpdateTowerScan]
  | cons m ms ih =>
    intro i h
    by_cases hin : Distance tower.position m.position ≤ tower.range
    · by_cases ht : tower.attackRate ≤ tower.timer
      · simp [UpdateTowerScan, if_pos hin, if_pos ht] at h
      · simp only [UpdateTowerScan, if_pos hin, if_neg ht] at h ⊢
        exact ih (i + 1) h
    · simp only [UpdateTowerScan, if_neg hin] at h ⊢
      exact ih (i + 1) h

/-- Claim C6: per tower update call, a bullet is emitted only when the
accumulated timer has reached the attack rate AND some monster is in range;
the emitted bullet starts at the tower with the fixed per-shot damage 50
and targets the FIRST in-range monster in collection order; firing resets
the timer to exactly 0.  (At most one bullet per call is structural: the
update returns an `Option Bullet`.)  With no emission the tower keeps the
accumulated timer and is otherwise unchanged. -/
theorem claim6_tower_fire_discipline (tower : Tower) (DeltaTime : ℝ)
    (monsters : List Monster) :
    (∀ blt, (UpdateTower tower DeltaTime monsters).2 = some blt →
      tower.attackRate ≤ tower.timer + DeltaTime ∧
      (UpdateTower tower DeltaTime monsters).1.timer = 0 ∧
      blt.position = tower.position ∧ blt.damage = 50 ∧
      (∃ m, monsters.get? blt.target_index = some m ∧
        Distance tower.position m.position ≤ tower.range) ∧
      (∀ j m', j < blt.target_index → monsters.get? j = some m' →
        ¬ Distance tower.position m'.position ≤ tower.range)) ∧
    ((UpdateTower tower DeltaTime monsters).2 = none →
      (UpdateTower tower DeltaTime monsters).1 =
        { tower with timer := tower.timer + DeltaTime }) := by
  constructor
  · intro blt h
    obtain ⟨ht, htw, hpos, hdmg, -, m', hget, hdist, hall⟩ :=
      UpdateTowerScan_fire_spec
        { tower with timer := tower.timer + DeltaTime } monsters 0 blt h
    refine ⟨ht, ?_, hpos, hdmg, ⟨m', hget, hdist⟩, hall⟩
    show (UpdateTowerScan { tower with timer := tower.timer + DeltaTime }
      monsters 0).1.timer = 0
    rw [htw]
  · intro h
    exact UpdateTowerScan_none_spec
      { tower with timer := tower.timer + DeltaTime } monsters 0 h

/-- A tower at the origin with range 100, rate 1.5, timer already at 1.5. -/
noncomputable def towerReady : Tower := ⟨⟨0, 0⟩, 100, 3 / 2, 3 / 2⟩

/-- Witness for `claim6_tower_fire_discipline` at a concrete input: the
ready tower fires exactly the bullet `bHit` at the monster at its foot. -/
theorem claim6_tower_fire_discipline_w :
    (UpdateTower towerReady 0 [mWeak]).2 = some bHit ∧
    towerReady.attackRate ≤ towerReady.timer + 0 ∧
    (UpdateTower towerReady 0 [mWeak]).1.timer = 0 ∧
    bHit.position = towerReady.position ∧ bHit.damage = 50 ∧
    (∃ m, ([mWeak] : List Monster).get? bHit.target_index = some m ∧
      Distance towerReady.position m.position ≤ towerReady.range) ∧
    (∀ j m', j < bHit.target_index →
      ([mWeak] : List Monster).get? j = some m' →
      ¬ Distance towerReady.position m'.position ≤ towerReady.range) := by
  have h : (UpdateTower towerReady 0 [mWeak]).2 = some bHit := by
    norm_num [UpdateTower, UpdateTowerScan, towerReady, mWeak, bHit, Distance]
  have hc := (claim6_tower_fire_discipline towerReady 0 [mWeak]).1 bHit h
  exact ⟨h, hc.1, hc.2.1, hc.2.2.1, hc.2.2.2.1, hc.2.2.2.2.1,
    hc.2.2.2.2.2⟩

/-- Unfolding `compactLoop` past the end of the collection: the scan stops. -/
lemma compactLoop_stop {α : Type u} {σ : Type v}
    (step : α → σ → Option (Bool × α × σ)) (v : List α) (s : σ) (k i : Nat)
    (hi : ¬ i < v.length) :
    compactLoop step v s k i = some (v, s, k) := by
  rw [compactLoop]
  simp [dif_neg hi]

/-- Unfolding `compactLoop` on an undefined step: the scan is undefined. -/
lemma compactLoop_undef {α : Type u} {σ : Type v}
    (step : α → σ → Option (Bool × α × σ)) (v : List α) (s : σ) (k i : Nat)
    (hi : i < v.length) (hstep : step (v.get ⟨i, hi⟩) s = none) :
    compactLoop step v s k i = none := by
  rw [compactLoop]
  rw [List.get_eq_getElem] at hstep
  simp [dif_pos hi, hstep]

/-- Unfolding `compactLoop` on a surviving entity: store the updated record
and advance to the next index. -/
lemma compactLoop_alive {α : Type u} {σ : Type v}
    (step : α → σ → Option (Bool × α × σ)) (v : List α) (s : σ) (k i : Nat)
    (hi : i < v.length) (a : α) (s' : σ)
    (hstep : step (v.get ⟨i, hi⟩) s = some (true, a, s')) :
    compactLoop step v s k i = compactLoop step (v.set i a) s' k (i + 1) := by
  rw [compactLoop]
  rw [List.get_eq_getElem] at hstep
  simp [dif_pos hi, hstep]

/-- Unfolding `compactLoop` on a dead entity: overwrite the slot with the
last record, pop the last element, count the removal, and stay at the same
index. -/
lemma compactLoop_dead {α : Type u} {σ : Type v}
    (step : α → σ → Option (Bool × α × σ)) (v : List α) (s : σ) (k i : Nat)
    (hi : i < v.length) (a : α) (s' : σ)
    (hstep : step (v.get ⟨i, hi⟩) s = some (false, a, s')) :
    compactLoop step v s k i =
      compactLoop step
        (((v.set i a).set i
          ((v.set i a).getD ((v.set i a).length - 1) a)).dropLast)
        s' (k + 1) i := by
  rw [compactLoop]
  rw [List.get_eq_getElem] at hstep
  simp [dif_pos hi, hstep]

/-- Writing back the element already stored at an index is the identity. -/
lemma set_get_self {α : Type u} : ∀ (l : List α) (i : Nat) (h : i < l.length),
    l.set i (l.get ⟨i, h⟩) = l := by
  intro l
  induction l with
  | nil =>
    intro i h
    simp at h
  | cons a l ih =>
    intro i h
    cases i with
    | zero => rfl
    | succ i =>
      show a :: l.set i (l.get ⟨i, by simpa using h⟩) = a :: l
      rw [ih i (by simpa using h)]

/-- The compaction scan's counting invariant: the removal counter grows by
exactly the number of entities removed (the shrinkage of the collection). -/
lemma compactLoop_count {α : Type u} {σ : Type v}
    (step : α → σ → Option (Bool × α × σ)) :
    ∀ (n : Nat) (v : List α) (s : σ) (k i : Nat), v.length - i ≤ n →
      ∀ v' s' k', compactLoop step v s k i = some (v', s', k') →
        k' + v'.length = k + v.length ∧ v'.length ≤ v.length := by
  intro n
  induction n with
  | zero =>
    intro v s k i hn v' s' k' h
    rw [compactLoop_stop step v s k i (by omega)] at h
    obtain ⟨h1, -, h3⟩ :
        v = v' ∧ s = s' ∧ k = k' := by simpa using h
    rw [← h1, ← h3]
    omega
  | succ n ih =>
    intro v s k i hn v' s' k' h
    by_cases hi : i < v.length
    · rcases hstep : step (v.get ⟨i, hi⟩) s with _ | ⟨alive, a, s₁⟩
      · rw [compactLoop_undef step v s k i hi hstep] at h
        exact Option.noConfusion h
      · cases alive with
        | true =>
          rw [compactLoop_alive step v s k i hi a s₁ hstep] at h
          have hrec := ih (v.set i a) s₁ k (i + 1)
            (by simp only [List.length_set]; omega) v' s' k' h
          rw [List.length_set] at hrec
          exact hrec
        | false =>
          rw [compactLoop_dead step v s k i hi a s₁ hstep] at h
          have hlen : (((v.set i a).set i
              ((v.set i a).getD ((v.set i a).length - 1) a)).dropLast).length
              = v.length - 1 := by
            simp [List.length_set, List.length_dropLast]
          have hrec := ih _ s₁ (k + 1) i (by rw [hlen]; omega) v' s' k' h
          rw [hlen] at hrec
          omega
    · rw [compactLoop_stop step v s k i hi] at h
      obtain ⟨h1, -, h3⟩ :
          v = v' ∧ s = s' ∧ k = k' := by simpa using h
      rw [← h1, ← h3]
      omega

/-- When every step call survives and leaves its entity unchanged, the
compaction scan returns the collection unchanged, in order and contents,
and the removal counter unchanged. -/
lemma compactLoop_id {α : Type u} {σ : Type v}
    (step : α → σ → Option (Bool × α × σ))
    (hstep : ∀ a s₀, ∃ s₁, step a s₀ = some (true, a, s₁)) :
    ∀ (n : Nat) (v : List α) (s : σ) (k i : Nat), v.length - i ≤ n →
      ∃ s', compactLoop step v s k i = some (v, s', k) := by
  intro n
  induction n with
  | zero =>
    intro v s k i hn
    exact ⟨s, compactLoop_stop step v s k i (by omega)⟩
  | succ n ih =>
    intro v s k i hn
    by_cases hi : i < v.length
    · obtain ⟨s₁, hs₁⟩ := hstep (v.get ⟨i, hi⟩) s
      have halive := compactLoop_alive step v s k i hi _ s₁ hs₁
      rw [set_get_self v i hi] at halive
      obtain ⟨s', hrec⟩ := ih v s₁ k (i + 1) (by omega)
      exact ⟨s', by rw [halive, hrec]⟩
    · exact ⟨s, compactLoop_stop step v s k i hi⟩

/-- The only ways `UpdateMonster` can report a monster dead: zero health,
the degenerate single-waypoint guard, or arrival within the proximity
threshold of the final waypoint (which deals the monster's damage to the
player, with unsigned wraparound). -/
lemma UpdateMonster_dead_cases (monster : Monster) (DeltaTime : ℝ)
    (waypoints : List Waypoint) (ph : Nat) (monster' : Monster) (ph' : Nat)
    (h : UpdateMonster monster DeltaTime waypoints ph =
      some (false, monster', ph')) :
    monster.health = 0 ∨ waypoints.length = 1 ∨
      (∃ wp, waypoints.get? monster.waypoint_index = some wp ∧
        Distance monster.position wp.position ≤ 2 ∧
        monster.waypoint_index = waypoints.length - 1 ∧
        ph' = u32sub ph monster.damage) := by
  unfold UpdateMonster at h
  split at h
  · rename_i h0
    exact Or.inl (by omega)
  split at h
  · rename_i h1
    exact Or.inr (Or.inl h1)
  split at h
  · exact Option.noConfusion h
  rename_i h1 wp hwp
  split at h
  · rename_i h2
    split at h
    · rename_i h3
      refine Or.inr (Or.inr ⟨wp, hwp, h2, h3.symm, ?_⟩)
      exact (show monster' = monster ∧ ph' = u32sub ph monster.damage by
        simpa using h.symm).2
    · simp only [moveStep] at h
      split at h
      · exact Option.noConfusion h
      · simp at h
  · simp only [moveStep] at h
    split at h
    · exact Option.noConfusion h
    · simp at h

/-- Claim C5 (amended): over one monster pass the kill counter grows by
exactly the number of monsters removed, and every removal is caused by
`UpdateMonster` reporting death, which happens only for zero health, for
the degenerate single-waypoint guard, or for arrival at the final waypoint
— the first and third are the claim's two paths, the guard is a third
removal path that is also counted as a kill. -/
theorem claim5_kill_count (DeltaTime : ℝ) (waypoints : List Waypoint)
    (monsters : List Monster) (ph kills : Nat)
    (monsters' : List Monster) (ph' kills' : Nat)
    (h : MonsterPass monsters DeltaTime waypoints ph kills =
      some (monsters', ph', kills')) :
    monsters'.length ≤ monsters.length ∧
    kills' = kills + (monsters.length - monsters'.length) ∧
    ∀ m phm m' phm',
      UpdateMonster m DeltaTime waypoints phm = some (false, m', phm') →
      m.health = 0 ∨ waypoints.length = 1 ∨
        (∃ wp, waypoints.get? m.waypoint_index = some wp ∧
          Distance m.position wp.position ≤ 2 ∧
          m.waypoint_index = waypoints.length - 1 ∧
          phm' = u32sub phm m.damage) := by
  have hc := compactLoop_count
    (fun m phx => UpdateMonster m DeltaTime waypoints phx)
    monsters.length monsters ph kills 0 (by omega) monsters' ph' kills' h
  refine ⟨hc.2, by omega, ?_⟩
  intro m phm m' phm' hdead
  exact UpdateMonster_dead_cases m DeltaTime waypoints phm m' phm' hdead

/-- Evaluation of the monster pass on one healthy monster far from the
single seed waypoint: the guard removes it and it is counted as a kill. -/
lemma monsterPass_guard_eval :
    MonsterPass [mGuard] 1 [wpSeed] 100 0 = some ([], 100, 1) := by
  have h1 : UpdateMonster mGuard 1 [wpSeed] 100 = some (false, mGuard, 100) := by
    norm_num [UpdateMonster, mGuard]
  unfold MonsterPass
  rw [compactLoop_dead _ [mGuard] 100 0 0 (by norm_num) mGuard 100 h1]
  rw [show ((([mGuard].set 0 mGuard).set 0
      (([mGuard].set 0 mGuard).getD (([mGuard].set 0 mGuard).length - 1)
        mGuard)).dropLast) = ([] : List Monster) by simp]
  rw [compactLoop_stop _ [] 100 1 0 (by simp)]

/-- Claim C5, counterexample: at game start (only the seed waypoint), a
spawned monster with full health far away from every waypoint is removed by
the degenerate-path guard and counted as a kill, although it neither died
of damage (health 100) nor reached the final waypoint (distance 495 to it,
and the player health is untouched). -/
theorem claim5_cex_guard_removal_counted :
    MonsterPass [mGuard] 1 [wpSeed] 100 0 = some ([], 100, 1) ∧
    mGuard.health ≠ 0 ∧
    ¬ Distance mGuard.position wpSeed.position ≤ 2 := by
  refine ⟨monsterPass_guard_eval, by norm_num [mGuard], ?_⟩
  have h2 : (2 : ℝ) < Real.sqrt 245000 :=
    (Real.lt_sqrt (by norm_num)).mpr (by norm_num)
  norm_num [Distance, mGuard, wpSeed]
  linarith

/-- Witness for `claim5_kill_count` at a concrete input. -/
theorem claim5_kill_count_w :
    MonsterPass [mGuard] 1 [wpSeed] 100 0 = some ([], 100, 1) ∧
    ([] : List Monster).length ≤ ([mGuard] : List Monster).length ∧
    1 = 0 + (([mGuard] : List Monster).length - ([] : List Monster).length) ∧
    ∀ m phm m' phm',
      UpdateMonster m 1 [wpSeed] phm = some (false, m', phm') →
      m.health = 0 ∨ ([wpSeed] : List Waypoint).length = 1 ∨
        (∃ wp, ([wpSeed] : List Waypoint).get? m.waypoint_index = some wp ∧
          Distance m.position wp.position ≤ 2 ∧
          m.waypoint_index = ([wpSeed] : List Waypoint).length - 1 ∧
          phm' = u32sub phm m.damage) := by
  have hc := claim5_kill_count 1 [wpSeed] [mGuard] 100 0 [] 100 1
    monsterPass_guard_eval
  exact ⟨monsterPass_guard_eval, hc.1, hc.2.1, hc.2.2⟩

/-- A step function that keeps every entity: used to instantiate the
compaction policy with zero dead entities. -/
def stepKeep : Nat → Nat → Option (Bool × Nat × Nat) :=
  fun a s => some (true, a, s)

/-- A step function that reports every entity dead, unchanged. -/
def stepDrop : Nat → Nat → Option (Bool × Nat × Nat) :=
  fun a s => some (false, a, s)

/-- Claim C10: (1) a compaction scan in which every entity is reported
alive and unchanged returns the collection unchanged in order and contents
(and the removal counter unchanged); (2) on a dead entity the scan
overwrites the slot with the record at the end, shrinks the collection by
exactly one, and recurses AT THE SAME position (the moved-in record is
re-examined in the same pass before the index advances). -/
theorem claim10_swap_pop_policy {α : Type u} {σ : Type v}
    (step : α → σ → Option (Bool × α × σ)) (v : List α) (s : σ) (k i : Nat) :
    ((∀ a s₀, ∃ s₁, step a s₀ = some (true, a, s₁)) →
      ∃ s', compactLoop step v s k 0 = some (v, s', k)) ∧
    (∀ (hi : i < v.length) (a : α) (s' : σ),
      step (v.get ⟨i, hi⟩) s = some (false, a, s') →
      compactLoop step v s k i =
        compactLoop step
          (((v.set i a).set i
            ((v.set i a).getD ((v.set i a).length - 1) a)).dropLast)
          s' (k + 1) i ∧
      (((v.set i a).set i
        ((v.set i a).getD ((v.set i a).length - 1) a)).dropLast).length + 1 =
        v.length) := by
  constructor
  · intro hstep
    exact compactLoop_id step hstep v.length v s k 0 (by omega)
  · intro hi a s' hstep
    refine ⟨compactLoop_dead step v s k i hi a s' hstep, ?_⟩
    simp only [List.length_dropLast, List.length_set]
    omega

/-- Witness for `claim10_swap_pop_policy` at concrete inputs: the identity
step on `[1, 2, 3]` (zero dead entities), and the always-dead step
examined at position 0. -/
theorem claim10_swap_pop_policy_w :
    (∃ s', compactLoop stepKeep [1, 2, 3] 0 0 0 = some ([1, 2, 3], s', 0)) ∧
    (compactLoop stepDrop [1, 2, 3] 0 0 0 =
      compactLoop stepDrop
        ((([1, 2, 3].set 0 1).set 0
          (([1, 2, 3].set 0 1).getD (([1, 2, 3].set 0 1).length - 1)
            1)).dropLast)
        0 1 0 ∧
     ((([1, 2, 3].set 0 1).set 0
       (([1, 2, 3].set 0 1).getD (([1, 2, 3].set 0 1).length - 1)
         1)).dropLast).length + 1 = ([1, 2, 3] : List Nat).length) :=
  ⟨(claim10_swap_pop_policy stepKeep [1, 2, 3] 0 0 0).1
     (fun a s₀ => ⟨s₀, rfl⟩),
   (claim10_swap_pop_policy stepDrop [1, 2, 3] 0 0 0).2
     (by norm_num) 1 0 rfl⟩

end TowerDefense
